import Mathlib

/-!
Verification of the ai_english_query repository.

Shallow embedding of the three stateful components the claims are about:
  - `MariaDBConnection` (src/mariadb_connector.py): connection state, the
    `_connect` retry loop, `execute`, `execute_modify`, `query_generator`
    and `close`, with the database driver and the network modelled as
    oracles and the externally visible actions (connection attempts,
    sleeps, driver calls, rollbacks, commits) recorded in a trace.
  - `STTListener` (src/stt_listener.py): the listening flag, the stop
    event and the single-shot capture loop, with the recognition outcome
    as a parameter and the number of stop-callback invocations counted.
  - `aiEnglishQuery` (src/aiEnglishQuery.py): `clean_ai_response` code
    fence stripping and the result-grid rendering of `load_to_tkinter_grid`
    and `on_submit`.
-/

/-! ### Python string helpers (str.strip, used by several components) -/

/-- ASCII whitespace recognised by Python `str.strip()`. -/
def pyIsSpace (c : Char) : Bool :=
  c = ' ' || c = Char.ofNat 9 || c = Char.ofNat 10 || c = Char.ofNat 13 ||
  c = Char.ofNat 11 || c = Char.ofNat 12

/-- Drop trailing characters satisfying `pyIsSpace` (the right half of `str.strip()`). -/
def stripEnd (s : List Char) : List Char :=
  (s.reverse.dropWhile pyIsSpace).reverse

/-- Python `s.strip()`: drop leading and trailing whitespace. -/
def pyStrip (s : List Char) : List Char :=
  stripEnd (s.dropWhile pyIsSpace)

/-! ### MariaDBConnection data model (src/mariadb_connector.py) -/

/-- the driver-side connection object; `live` is what `is_connected()` reports. -/
structure ConnSt where
  live : Bool
deriving DecidableEq, Repr

/-- the `self.config` dict built by `MariaDBConnection.__init__` (lines 31-43). -/
structure Config where
  host : String
  port : Nat
  user : String
  password : String
  database : Option String
  autocommit : Bool
  charset : String
  use_unicode : Bool
  get_warnings : Bool
  raise_on_warnings : Bool
  connection_timeout : Nat
deriving DecidableEq, Repr

/-- the mutable attributes of a `MariaDBConnection` instance. -/
structure MDBState where
  config : Config
  reconnect_attempts : Nat
  reconnect_delay : Nat
  connection : Option ConnSt
  cursor : Bool
deriving DecidableEq, Repr

/-- driver-level error (`mysql.connector.Error`), abstract payload. -/
structure DriverErr where
  code : Nat
deriving DecidableEq, Repr

/-- errors a `MariaDBConnection` operation can raise: the blank-SQL
`ValueError`, the `ConnectionError` of `get_cursor`, or a re-raised driver error. -/
inductive DBErr where
  | emptyStatement
  | connectionFailed
  | driver (e : DriverErr)
deriving DecidableEq, Repr

/-- a Python value stored in a result cell. -/
inductive PyVal where
  | str (s : String)
  | int (n : Int)
  | null
deriving DecidableEq, Repr

/-- a result row as returned by `execute`: a `dict` as an association list. -/
abbrev Row := List (String × PyVal)

/-- what the driver cursor exposes after `cursor.execute(sql)`. -/
structure QRes where
  withRows : Bool
  description : Option (List String)
  rows : List (List PyVal)
  rowcount : Int
deriving DecidableEq, Repr

/-- externally visible actions of a `MariaDBConnection` operation. -/
inductive Ev where
  | connectAttempt (success : Bool)
  | sleep (d : Nat)
  | driverExec (sql : List Char)
  | rollback
  | commit
deriving DecidableEq, Repr

/-- `self.connection and self.connection.is_connected()`. -/
def isLive (st : MDBState) : Bool :=
  match st.connection with
  | some c => c.live
  | none => false

/-- effect of `self.connection.close()` on a dead-or-live held connection
object inside the retry loop (line 59): the object becomes closed but the
attribute keeps pointing at it. -/
def closeDead (st : MDBState) : MDBState :=
  match st.connection with
  | some _ => { st with connection := some ⟨false⟩ }
  | none => st

/-- state after a successful `mysql.connector.connect` plus `cursor()` (lines 61-62). -/
def connectedState (st : MDBState) : MDBState :=
  { st with connection := some ⟨true⟩, cursor := true }

/-- result of `_connect`: the returned bool, the updated instance state,
and the trace of attempts and sleeps. -/
structure ConnRes where
  ok : Bool
  state : MDBState
  trace : List Ev
deriving DecidableEq, Repr

/-- the `for attempt in range(R + 1)` loop of `_connect` (lines 53-73):
`net a` tells whether the connection attempt with loop index `a` succeeds;
`fuel` is the number of remaining loop iterations. -/
def connectAux (net : Nat → Bool) (R D : Nat) : Nat → Nat → MDBState → ConnRes
  | 0, _, st => ⟨false, st, []⟩
  | fuel + 1, a, st =>
    if isLive st then ⟨true, st, []⟩
    else
      let st1 := closeDead st
      if net a then
        ⟨true, connectedState st1, [Ev.connectAttempt true]⟩
      else if a < R then
        let r := connectAux net R D fuel (a + 1) st1
        ⟨r.ok, r.state, Ev.connectAttempt false :: Ev.sleep D :: r.trace⟩
      else
        ⟨false, st1, [Ev.connectAttempt false]⟩

/-- `MariaDBConnection._connect` (lines 49-73). -/
def MariaDBConnection._connect (net : Nat → Bool) (st : MDBState) : ConnRes :=
  connectAux net st.reconnect_attempts st.reconnect_delay (st.reconnect_attempts + 1) 0 st

/-- `MariaDBConnection.execute` (lines 95-112), with the driver oracle
`drv` giving the outcome of `cursor.execute(sql)`. -/
def MariaDBConnection.execute (net : Nat → Bool) (drv : List Char → Except DriverErr QRes)
    (st : MDBState) (sql : List Char) : Except DBErr (List Row) × MDBState × List Ev :=
  if pyStrip sql = [] then (Except.error DBErr.emptyStatement, st, [])
  else
    let c := MariaDBConnection._connect net st
    if c.ok = false then (Except.error DBErr.connectionFailed, c.state, c.trace)
    else
      match drv sql with
      | Except.error e =>
        (Except.error (DBErr.driver e), c.state, c.trace ++ [Ev.driverExec sql, Ev.rollback])
      | Except.ok q =>
        if q.withRows && q.description.isSome then
          (Except.ok (q.rows.map fun r => List.zip (q.description.getD []) r),
           c.state, c.trace ++ [Ev.driverExec sql])
        else
          (Except.ok [], c.state, c.trace ++ [Ev.driverExec sql])

/-- `MariaDBConnection.execute_modify` (lines 114-126). -/
def MariaDBConnection.execute_modify (net : Nat → Bool) (drv : List Char → Except DriverErr QRes)
    (st : MDBState) (sql : List Char) : Except DBErr Int × MDBState × List Ev :=
  if pyStrip sql = [] then (Except.error DBErr.emptyStatement, st, [])
  else
    let c := MariaDBConnection._connect net st
    if c.ok = false then (Except.error DBErr.connectionFailed, c.state, c.trace)
    else
      match drv sql with
      | Except.error e =>
        (Except.error (DBErr.driver e), c.state, c.trace ++ [Ev.driverExec sql, Ev.rollback])
      | Except.ok q =>
        (Except.ok q.rowcount, c.state, c.trace ++ [Ev.driverExec sql, Ev.commit])

/-- `MariaDBConnection.query_generator` (lines 128-140), materialised: the
chunked `fetchmany` loop streams exactly the rows of the result set, each
zipped with the column names of `cursor.description`.  There is no blank-SQL
check in the source. -/
def MariaDBConnection.query_generator (net : Nat → Bool) (drv : List Char → Except DriverErr QRes)
    (st : MDBState) (sql : List Char) : Except DBErr (List Row) × MDBState × List Ev :=
  let c := MariaDBConnection._connect net st
  if c.ok = false then (Except.error DBErr.connectionFailed, c.state, c.trace)
  else
    match drv sql with
    | Except.error e =>
      (Except.error (DBErr.driver e), c.state, c.trace ++ [Ev.driverExec sql, Ev.rollback])
    | Except.ok q =>
      (Except.ok (q.rows.map fun r => List.zip (q.description.getD []) r),
       c.state, c.trace ++ [Ev.driverExec sql])

/-- `MariaDBConnection.close` (lines 142-146). -/
def MariaDBConnection.close (st : MDBState) : MDBState :=
  if isLive st then { st with connection := some ⟨false⟩ } else st

/-! ### helper functions for stating the connection-retry claim -/

/-- number of `connectAttempt` events in a trace. -/
def attemptCount : List Ev → Nat
  | [] => 0
  | Ev.connectAttempt _ :: tr => attemptCount tr + 1
  | _ :: tr => attemptCount tr

/-- number of `driverExec` events in a trace. -/
def execCount : List Ev → Nat
  | [] => 0
  | Ev.driverExec _ :: tr => execCount tr + 1
  | _ :: tr => execCount tr

/-- number of `commit` events in a trace. -/
def commitCount : List Ev → Nat
  | [] => 0
  | Ev.commit :: tr => commitCount tr + 1
  | _ :: tr => commitCount tr

/-- number of `rollback` events in a trace. -/
def rollbackCount : List Ev → Nat
  | [] => 0
  | Ev.rollback :: tr => rollbackCount tr + 1
  | _ :: tr => rollbackCount tr

/-- trace of `k` failed attempts each followed by a `sleep D`. -/
def failSeq (D : Nat) : Nat → List Ev
  | 0 => []
  | k + 1 => Ev.connectAttempt false :: Ev.sleep D :: failSeq D k

/-- index (relative to `a`) of the first successful attempt among the next
`fuel` ones, if any. -/
def firstNet (net : Nat → Bool) (a : Nat) : Nat → Option Nat
  | 0 => none
  | fuel + 1 => if net a then some 0 else (firstNet net (a + 1) fuel).map (· + 1)

/-! ### basic lemmas about the connection model -/

lemma isLive_closeDead (st : MDBState) : isLive (closeDead st) = false := by
  cases h : st.connection <;> simp [closeDead, isLive, h]

lemma closeDead_closeDead (st : MDBState) : closeDead (closeDead st) = closeDead st := by
  cases h : st.connection <;> simp [closeDead, h]

lemma connectedState_closeDead (st : MDBState) :
    connectedState (closeDead st) = connectedState st := by
  cases h : st.connection <;> simp [closeDead, connectedState, h]

lemma attemptCount_append (t1 t2 : List Ev) :
    attemptCount (t1 ++ t2) = attemptCount t1 + attemptCount t2 := by
  induction t1 with
  | nil => simp [attemptCount]
  | cons e tr ih =>
    cases e with
    | connectAttempt b => simp [attemptCount, ih]; omega
    | sleep d => simp [attemptCount, ih]
    | driverExec s => simp [attemptCount, ih]
    | rollback => simp [attemptCount, ih]
    | commit => simp [attemptCount, ih]

lemma attemptCount_failSeq (D k : Nat) : attemptCount (failSeq D k) = k := by
  induction k with
  | zero => rfl
  | succ k ih => simp [failSeq, attemptCount, ih]

lemma firstNet_some (net : Nat → Bool) :
    ∀ fuel a k, firstNet net a fuel = some k →
      k < fuel ∧ net (a + k) = true ∧ ∀ j, j < k → net (a + j) = false := by
  intro fuel
  induction fuel with
  | zero => intro a k h; simp [firstNet] at h
  | succ fuel ih =>
    intro a k h
    by_cases hn : net a = true
    · simp [firstNet, hn] at h
      subst h
      exact ⟨Nat.succ_pos _, by simpa using hn, fun j hj => absurd hj (Nat.not_lt_zero j)⟩
    · simp [firstNet, hn] at h
      obtain ⟨k2, hk2, rfl⟩ := h
      obtain ⟨h1, h2, h3⟩ := ih (a + 1) k2 hk2
      refine ⟨by omega, ?_, ?_⟩
      · have e : a + (k2 + 1) = (a + 1) + k2 := by omega
        rw [e]; exact h2
      · intro j hj
        cases j with
        | zero => simpa using hn
        | succ j =>
          have e : a + (j + 1) = (a + 1) + j := by omega
          rw [e]; exact h3 j (by omega)

lemma firstNet_none (net : Nat → Bool) :
    ∀ fuel a, firstNet net a fuel = none → ∀ j, j < fuel → net (a + j) = false := by
  intro fuel
  induction fuel with
  | zero => intro a _ j hj; omega
  | succ fuel ih =>
    intro a h j hj
    by_cases hn : net a = true
    · simp [firstNet, hn] at h
    · simp [firstNet, hn] at h
      cases j with
      | zero => simpa using hn
      | succ j =>
        have e : a + (j + 1) = (a + 1) + j := by omega
        rw [e]; exact ih (a + 1) h j (by omega)

lemma connectAux_succ (net : Nat → Bool) (R D fuel a : Nat) (st : MDBState) :
    connectAux net R D (fuel + 1) a st =
      if isLive st then ⟨true, st, []⟩
      else if net a then ⟨true, connectedState (closeDead st), [Ev.connectAttempt true]⟩
      else if a < R then
        let r := connectAux net R D fuel (a + 1) (closeDead st)
        ⟨r.ok, r.state, Ev.connectAttempt false :: Ev.sleep D :: r.trace⟩
      else ⟨false, closeDead st, [Ev.connectAttempt false]⟩ := rfl

lemma firstNet_succ (net : Nat → Bool) (a fuel : Nat) :
    firstNet net a (fuel + 1) =
      if net a then some 0 else (firstNet net (a + 1) fuel).map (· + 1) := rfl

lemma connectAux_dead (net : Nat → Bool) (R D : Nat) :
    ∀ fuel a st, isLive st = false → a + fuel = R + 1 → 1 ≤ fuel →
      connectAux net R D fuel a st =
        match firstNet net a fuel with
        | some k => ⟨true, connectedState st, failSeq D k ++ [Ev.connectAttempt true]⟩
        | none => ⟨false, closeDead st, failSeq D (fuel - 1) ++ [Ev.connectAttempt false]⟩ := by
  intro fuel
  induction fuel with
  | zero => intro a st _ _ hf; omega
  | succ fuel ih =>
    intro a st hl ha _
    rw [connectAux_succ]
    by_cases hn : net a = true
    · simp [hl, hn, firstNet, connectedState_closeDead, failSeq]
    · by_cases hR : a < R
      · have hf2 : 1 ≤ fuel := by omega
        have ha2 : (a + 1) + fuel = R + 1 := by omega
        have hrec := ih (a + 1) (closeDead st) (isLive_closeDead st) ha2 hf2
        obtain ⟨m, rfl⟩ : ∃ m, fuel = m + 1 := ⟨fuel - 1, by omega⟩
        cases hfn : firstNet net (a + 1) (m + 1) with
        | some k =>
          simp only [hfn] at hrec
          rw [firstNet_succ]
          simp [hl, hn, hR, hrec, hfn, connectedState_closeDead, failSeq]
        | none =>
          simp only [hfn] at hrec
          rw [firstNet_succ]
          simp [hl, hn, hR, hrec, hfn, closeDead_closeDead, failSeq]
      · obtain ⟨rfl, rfl⟩ : fuel = 0 ∧ a = R := by omega
        simp [hl, hn, firstNet, failSeq]

/-- Claim C1: for a `MariaDBConnection` with retry count `R = reconnect_attempts`
and delay `D = reconnect_delay`, `_connect` makes at most `R + 1` connection
attempts with a `sleep D` between consecutive failed attempts (the `failSeq`
trace shape); it returns `true` with an empty trace when the held session is
live, returns `true` right after the first successful attempt `k` (all earlier
attempts having failed), and returns `false` only when all `R + 1` attempts
failed, leaving no live session behind. -/
theorem C1_connect_retry (net : Nat → Bool) (st : MDBState) :
    attemptCount (MariaDBConnection._connect net st).trace ≤ st.reconnect_attempts + 1
    ∧ (isLive st = true → MariaDBConnection._connect net st = ⟨true, st, []⟩)
    ∧ (isLive st = false →
        match firstNet net 0 (st.reconnect_attempts + 1) with
        | some k =>
            (MariaDBConnection._connect net st =
              ⟨true, connectedState st,
               failSeq st.reconnect_delay k ++ [Ev.connectAttempt true]⟩)
            ∧ k ≤ st.reconnect_attempts ∧ net k = true ∧ (∀ j, j < k → net j = false)
        | none =>
            (MariaDBConnection._connect net st =
              ⟨false, closeDead st,
               failSeq st.reconnect_delay st.reconnect_attempts ++ [Ev.connectAttempt false]⟩)
            ∧ isLive (closeDead st) = false
            ∧ (∀ j, j ≤ st.reconnect_attempts → net j = false)) := by
  cases hl : isLive st with
  | true =>
    have hc : MariaDBConnection._connect net st = ⟨true, st, []⟩ := by
      rw [MariaDBConnection._connect, connectAux_succ, if_pos hl]
    refine ⟨?_, fun _ => hc, fun h => Bool.noConfusion h⟩
    rw [hc]
    simp [attemptCount]
  | false =>
    have key := connectAux_dead net st.reconnect_attempts st.reconnect_delay
      (st.reconnect_attempts + 1) 0 st hl (by omega) (by omega)
    cases hfn : firstNet net 0 (st.reconnect_attempts + 1) with
    | some k =>
      simp only [hfn] at key
      obtain ⟨hk, hnet, hprev⟩ := firstNet_some net (st.reconnect_attempts + 1) 0 k hfn
      simp only [Nat.zero_add] at hnet hprev
      have hc : MariaDBConnection._connect net st =
          ⟨true, connectedState st,
           failSeq st.reconnect_delay k ++ [Ev.connectAttempt true]⟩ := key
      refine ⟨?_, fun h => Bool.noConfusion h, fun _ => ⟨hc, by omega, hnet, hprev⟩⟩
      simp only [hc, attemptCount_append, attemptCount_failSeq, attemptCount]
      omega
    | none =>
      simp only [hfn, Nat.add_sub_cancel] at key
      have hall := firstNet_none net (st.reconnect_attempts + 1) 0 hfn
      simp only [Nat.zero_add] at hall
      have hc : MariaDBConnection._connect net st =
          ⟨false, closeDead st,
           failSeq st.reconnect_delay st.reconnect_attempts ++ [Ev.connectAttempt false]⟩ := key
      refine ⟨?_, fun h => Bool.noConfusion h,
        fun _ => ⟨hc, isLive_closeDead st, fun j hj => hall j (by omega)⟩⟩
      simp only [hc, attemptCount_append, attemptCount_failSeq, attemptCount]
      omega

/-- concrete network oracle for the C1 witness: only the second attempt succeeds. -/
def netW : Nat → Bool := fun k => decide (k = 1)

/-- concrete configuration mirroring the `__init__` defaults. -/
def cfgW : Config :=
  { host := "localhost", port := 3306, user := "root", password := "",
    database := none, autocommit := true, charset := "utf8mb4",
    use_unicode := true, get_warnings := true, raise_on_warnings := false,
    connection_timeout := 10 }

/-- concrete never-connected instance state with `reconnect_attempts = 3`,
`reconnect_delay = 2`. -/
def stW : MDBState :=
  { config := cfgW, reconnect_attempts := 3, reconnect_delay := 2,
    connection := none, cursor := false }

/-- Witness for C1: with attempt 0 failing and attempt 1 succeeding, `_connect`
returns true after one failed attempt, one sleep of 2, and one successful attempt. -/
theorem C1_connect_retry_witness :
    MariaDBConnection._connect netW stW =
      ⟨true, connectedState stW, failSeq 2 1 ++ [Ev.connectAttempt true]⟩ := by
  have h := (C1_connect_retry netW stW).2.2 (by decide)
  have e : firstNet netW 0 (stW.reconnect_attempts + 1) = some 1 := by decide
  simp only [e] at h
  exact h.1

/-! ### lemmas for the execute / execute_modify / query_generator claims -/

lemma execCount_append (t1 t2 : List Ev) :
    execCount (t1 ++ t2) = execCount t1 + execCount t2 := by
  induction t1 with
  | nil => simp [execCount]
  | cons e tr ih =>
    cases e with
    | connectAttempt b => simp [execCount, ih]
    | sleep d => simp [execCount, ih]
    | driverExec s => simp [execCount, ih]; omega
    | rollback => simp [execCount, ih]
    | commit => simp [execCount, ih]

lemma rollbackCount_append (t1 t2 : List Ev) :
    rollbackCount (t1 ++ t2) = rollbackCount t1 + rollbackCount t2 := by
  induction t1 with
  | nil => simp [rollbackCount]
  | cons e tr ih =>
    cases e with
    | connectAttempt b => simp [rollbackCount, ih]
    | sleep d => simp [rollbackCount, ih]
    | driverExec s => simp [rollbackCount, ih]
    | rollback => simp [rollbackCount, ih]; omega
    | commit => simp [rollbackCount, ih]

lemma commitCount_append (t1 t2 : List Ev) :
    commitCount (t1 ++ t2) = commitCount t1 + commitCount t2 := by
  induction t1 with
  | nil => simp [commitCount]
  | cons e tr ih =>
    cases e with
    | connectAttempt b => simp [commitCount, ih]
    | sleep d => simp [commitCount, ih]
    | driverExec s => simp [commitCount, ih]
    | rollback => simp [commitCount, ih]
    | commit => simp [commitCount, ih]; omega

lemma connectAux_counts (net : Nat → Bool) (R D : Nat) :
    ∀ fuel a st,
      execCount (connectAux net R D fuel a st).trace = 0
      ∧ commitCount (connectAux net R D fuel a st).trace = 0
      ∧ rollbackCount (connectAux net R D fuel a st).trace = 0 := by
  intro fuel
  induction fuel with
  | zero => intro a st; simp [connectAux, execCount, commitCount, rollbackCount]
  | succ fuel ih =>
    intro a st
    rw [connectAux_succ]
    by_cases hl : isLive st = true
    · simp [hl, execCount, commitCount, rollbackCount]
    · by_cases hn : net a = true
      · simp [hl, hn, execCount, commitCount, rollbackCount]
      · by_cases hR : a < R
        · obtain ⟨g1, g2, g3⟩ := ih (a + 1) (closeDead st)
          simp [hl, hn, hR, execCount, commitCount, rollbackCount, g1, g2, g3]
        · simp [hl, hn, hR, execCount, commitCount, rollbackCount]

lemma connect_counts (net : Nat → Bool) (st : MDBState) :
    execCount (MariaDBConnection._connect net st).trace = 0
    ∧ commitCount (MariaDBConnection._connect net st).trace = 0
    ∧ rollbackCount (MariaDBConnection._connect net st).trace = 0 :=
  connectAux_counts net st.reconnect_attempts st.reconnect_delay
    (st.reconnect_attempts + 1) 0 st

/-- fields of `MariaDBConnection` that `__init__` sets and no method may change. -/
def samePolicy (st1 st2 : MDBState) : Prop :=
  st1.config = st2.config
  ∧ st1.reconnect_attempts = st2.reconnect_attempts
  ∧ st1.reconnect_delay = st2.reconnect_delay

lemma closeDead_fields (st : MDBState) : samePolicy (closeDead st) st := by
  cases h : st.connection <;> simp [closeDead, samePolicy, h]

lemma connectAux_fields (net : Nat → Bool) (R D : Nat) :
    ∀ fuel a st, samePolicy (connectAux net R D fuel a st).state st := by
  intro fuel
  induction fuel with
  | zero => intro a st; simp [connectAux, samePolicy]
  | succ fuel ih =>
    intro a st
    obtain ⟨f1, f2, f3⟩ := closeDead_fields st
    rw [connectAux_succ]
    by_cases hl : isLive st = true
    · simp [hl, samePolicy]
    · by_cases hn : net a = true
      · simp [hl, hn, samePolicy, connectedState, f1, f2, f3]
      · by_cases hR : a < R
        · obtain ⟨g1, g2, g3⟩ := ih (a + 1) (closeDead st)
          simp only [samePolicy]
          simp [hl, hn, hR]
          exact ⟨g1.trans f1, g2.trans f2, g3.trans f3⟩
        · simp [hl, hn, hR, samePolicy, f1, f2, f3]

lemma connect_fields (net : Nat → Bool) (st : MDBState) :
    samePolicy (MariaDBConnection._connect net st).state st :=
  connectAux_fields net st.reconnect_attempts st.reconnect_delay
    (st.reconnect_attempts + 1) 0 st

/-- Claim C4: blank or whitespace-only SQL makes `execute` and
`execute_modify` raise the empty-statement error before any connection
attempt or driver call (empty trace), with the state unchanged. -/
theorem C4_blank_sql_rejected (net : Nat → Bool) (drv : List Char → Except DriverErr QRes)
    (st : MDBState) (sql : List Char) (h : pyStrip sql = []) :
    MariaDBConnection.execute net drv st sql = (Except.error DBErr.emptyStatement, st, [])
    ∧ MariaDBConnection.execute_modify net drv st sql =
        (Except.error DBErr.emptyStatement, st, []) := by
  constructor
  · simp [MariaDBConnection.execute, h]
  · simp [MariaDBConnection.execute_modify, h]

/-- concrete always-succeeding network oracle. -/
def netOkW : Nat → Bool := fun _ => true

/-- concrete driver oracle answering with a rowless result. -/
def drvW : List Char → Except DriverErr QRes := fun _ => Except.ok ⟨false, none, [], 0⟩

/-- concrete driver oracle that always fails. -/
def drvErrW : List Char → Except DriverErr QRes := fun _ => Except.error ⟨1045⟩

/-- Witness for C4 on the whitespace-only statement consisting of one space. -/
theorem C4_blank_sql_rejected_witness :
    MariaDBConnection.execute netOkW drvW stW [' '] =
      (Except.error DBErr.emptyStatement, stW, [])
    ∧ MariaDBConnection.execute_modify netOkW drvW stW [' '] =
        (Except.error DBErr.emptyStatement, stW, []) :=
  C4_blank_sql_rejected netOkW drvW stW [' '] (by decide)

/-- Claim C5: when the driver raises during statement execution, `execute`,
`execute_modify` and `query_generator` all roll the transaction back and
re-raise the same error; each trace carries exactly one driver call (the query
is never retried), exactly one rollback, and no commit. -/
theorem C5_driver_error_rollback (net : Nat → Bool) (drv : List Char → Except DriverErr QRes)
    (st : MDBState) (sql : List Char) (e : DriverErr)
    (hb : ¬ pyStrip sql = []) (hc : (MariaDBConnection._connect net st).ok = true)
    (hd : drv sql = Except.error e) :
    (MariaDBConnection.execute net drv st sql =
      (Except.error (DBErr.driver e), (MariaDBConnection._connect net st).state,
       (MariaDBConnection._connect net st).trace ++ [Ev.driverExec sql, Ev.rollback]))
    ∧ (MariaDBConnection.execute_modify net drv st sql =
      (Except.error (DBErr.driver e), (MariaDBConnection._connect net st).state,
       (MariaDBConnection._connect net st).trace ++ [Ev.driverExec sql, Ev.rollback]))
    ∧ (MariaDBConnection.query_generator net drv st sql =
      (Except.error (DBErr.driver e), (MariaDBConnection._connect net st).state,
       (MariaDBConnection._connect net st).trace ++ [Ev.driverExec sql, Ev.rollback]))
    ∧ execCount (MariaDBConnection.execute net drv st sql).2.2 = 1
    ∧ rollbackCount (MariaDBConnection.execute net drv st sql).2.2 = 1
    ∧ commitCount (MariaDBConnection.execute net drv st sql).2.2 = 0
    ∧ execCount (MariaDBConnection.execute_modify net drv st sql).2.2 = 1
    ∧ rollbackCount (MariaDBConnection.execute_modify net drv st sql).2.2 = 1
    ∧ commitCount (MariaDBConnection.execute_modify net drv st sql).2.2 = 0
    ∧ execCount (MariaDBConnection.query_generator net drv st sql).2.2 = 1
    ∧ rollbackCount (MariaDBConnection.query_generator net drv st sql).2.2 = 1
    ∧ commitCount (MariaDBConnection.query_generator net drv st sql).2.2 = 0 := by
  obtain ⟨he0, hm0, hr0⟩ := connect_counts net st
  have h1 : MariaDBConnection.execute net drv st sql =
      (Except.error (DBErr.driver e), (MariaDBConnection._connect net st).state,
       (MariaDBConnection._connect net st).trace ++ [Ev.driverExec sql, Ev.rollback]) := by
    simp [MariaDBConnection.execute, hb, hc, hd]
  have h2 : MariaDBConnection.execute_modify net drv st sql =
      (Except.error (DBErr.driver e), (MariaDBConnection._connect net st).state,
       (MariaDBConnection._connect net st).trace ++ [Ev.driverExec sql, Ev.rollback]) := by
    simp [MariaDBConnection.execute_modify, hb, hc, hd]
  have h3 : MariaDBConnection.query_generator net drv st sql =
      (Except.error (DBErr.driver e), (MariaDBConnection._connect net st).state,
       (MariaDBConnection._connect net st).trace ++ [Ev.driverExec sql, Ev.rollback]) := by
    simp [MariaDBConnection.query_generator, hc, hd]
  refine ⟨h1, h2, h3, ?_, ?_, ?_, ?_, ?_, ?_, ?_, ?_, ?_⟩ <;>
    simp [h1, h2, h3, execCount_append, rollbackCount_append, commitCount_append,
      execCount, rollbackCount, commitCount, he0, hm0, hr0]

/-- concrete SQL text for witnesses. -/
def sqlWstr : String := "SELECT 1;"

/-- the same SQL text as a character list. -/
def sqlW : List Char := sqlWstr.data

/-- Witness for C5: a failing driver under a reachable server makes `execute`
roll back and re-raise the driver error. -/
theorem C5_driver_error_rollback_witness :
    MariaDBConnection.execute netOkW drvErrW stW sqlW =
      (Except.error (DBErr.driver ⟨1045⟩), (MariaDBConnection._connect netOkW stW).state,
       (MariaDBConnection._connect netOkW stW).trace ++ [Ev.driverExec sqlW, Ev.rollback])
    ∧ commitCount (MariaDBConnection.execute netOkW drvErrW stW sqlW).2.2 = 0 :=
  have h := C5_driver_error_rollback netOkW drvErrW stW sqlW ⟨1045⟩
    (by decide) (by decide) rfl
  ⟨h.1, h.2.2.2.2.2.1⟩

/-- Claim C8: `close` is idempotent: it is a total function (never raises) in
every state, a second call finds no live session and changes nothing, and no
session is live after a `close`. -/
theorem C8_close_idempotent (st : MDBState) :
    MariaDBConnection.close (MariaDBConnection.close st) = MariaDBConnection.close st
    ∧ isLive (MariaDBConnection.close st) = false
    ∧ (isLive st = false → MariaDBConnection.close st = st) := by
  by_cases h : isLive st = true
  · have h1 : MariaDBConnection.close st = { st with connection := some ⟨false⟩ } := by
      simp [MariaDBConnection.close, h]
    have h2 : isLive (MariaDBConnection.close st) = false := by simp [h1, isLive]
    refine ⟨?_, h2, fun hf => by rw [h] at hf; exact Bool.noConfusion hf⟩
    rw [MariaDBConnection.close, if_neg (by simp [h2])]
  · have h0 : isLive st = false := by simpa using h
    have h1 : MariaDBConnection.close st = st := by simp [MariaDBConnection.close, h0]
    exact ⟨by rw [h1, h1], by rw [h1]; exact h0, fun _ => h1⟩

/-- Witness for C8 on the never-connected state. -/
theorem C8_close_idempotent_witness :
    MariaDBConnection.close (MariaDBConnection.close stW) = MariaDBConnection.close stW
    ∧ isLive (MariaDBConnection.close stW) = false
    ∧ MariaDBConnection.close stW = stW :=
  have h := C8_close_idempotent stW
  ⟨h.1, h.2.1, h.2.2 (by decide)⟩

/-- Claim C9: every operation of the class (`_connect`, `execute`,
`execute_modify`, `query_generator`, `close`) leaves the `config` mapping,
`reconnect_attempts` and `reconnect_delay` exactly as `__init__` set them. -/
theorem C9_config_immutable (net : Nat → Bool) (drv : List Char → Except DriverErr QRes)
    (st : MDBState) (sql : List Char) :
    samePolicy (MariaDBConnection._connect net st).state st
    ∧ samePolicy (MariaDBConnection.execute net drv st sql).2.1 st
    ∧ samePolicy (MariaDBConnection.execute_modify net drv st sql).2.1 st
    ∧ samePolicy (MariaDBConnection.query_generator net drv st sql).2.1 st
    ∧ samePolicy (MariaDBConnection.close st) st := by
  have hcf := connect_fields net st
  have hself : samePolicy st st := ⟨rfl, rfl, rfl⟩
  refine ⟨hcf, ?_, ?_, ?_, ?_⟩
  · by_cases hb : pyStrip sql = []
    · simpa [MariaDBConnection.execute, hb] using hself
    · by_cases hc : (MariaDBConnection._connect net st).ok = false
      · simpa [MariaDBConnection.execute, hb, hc] using hcf
      · cases hd : drv sql with
        | error e => simpa [MariaDBConnection.execute, hb, hc, hd] using hcf
        | ok q =>
          by_cases hw : (q.withRows && q.description.isSome) = true
          · simpa [MariaDBConnection.execute, hb, hc, hd, hw] using hcf
          · simpa [MariaDBConnection.execute, hb, hc, hd, hw] using hcf
  · by_cases hb : pyStrip sql = []
    · simpa [MariaDBConnection.execute_modify, hb] using hself
    · by_cases hc : (MariaDBConnection._connect net st).ok = false
      · simpa [MariaDBConnection.execute_modify, hb, hc] using hcf
      · cases hd : drv sql with
        | error e => simpa [MariaDBConnection.execute_modify, hb, hc, hd] using hcf
        | ok q => simpa [MariaDBConnection.execute_modify, hb, hc, hd] using hcf
  · by_cases hc : (MariaDBConnection._connect net st).ok = false
    · simpa [MariaDBConnection.query_generator, hc] using hcf
    · cases hd : drv sql with
      | error e => simpa [MariaDBConnection.query_generator, hc, hd] using hcf
      | ok q => simpa [MariaDBConnection.query_generator, hc, hd] using hcf
  · by_cases hl : isLive st = true
    · simp [MariaDBConnection.close, hl, samePolicy]
    · simpa [MariaDBConnection.close, hl] using hself

/-- Claim C10: `query_generator` has no blank-input check: on blank SQL its
result is never the empty-statement error and, whenever the connection step
succeeds, the blank string is forwarded to the driver (a `driverExec sql`
event occurs), in contrast with `execute` and `execute_modify` which reject
the same input up front. -/
theorem C10_generator_no_blank_check (net : Nat → Bool)
    (drv : List Char → Except DriverErr QRes) (st : MDBState) (sql : List Char)
    (hb : pyStrip sql = []) :
    (MariaDBConnection.query_generator net drv st sql).1 ≠ Except.error DBErr.emptyStatement
    ∧ ((MariaDBConnection._connect net st).ok = true →
        Ev.driverExec sql ∈ (MariaDBConnection.query_generator net drv st sql).2.2)
    ∧ MariaDBConnection.execute net drv st sql = (Except.error DBErr.emptyStatement, st, [])
    ∧ MariaDBConnection.execute_modify net drv st sql =
        (Except.error DBErr.emptyStatement, st, []) := by
  refine ⟨?_, ?_, ?_, ?_⟩
  · by_cases hc : (MariaDBConnection._connect net st).ok = false
    · simp [MariaDBConnection.query_generator, hc]
    · cases hd : drv sql with
      | error e => simp [MariaDBConnection.query_generator, hc, hd]
      | ok q => simp [MariaDBConnection.query_generator, hc, hd]
  · intro hk
    cases hd : drv sql with
    | error e => simp [MariaDBConnection.query_generator, hk, hd]
    | ok q => simp [MariaDBConnection.query_generator, hk, hd]
  · simp [MariaDBConnection.execute, hb]
  · simp [MariaDBConnection.execute_modify, hb]

/-- Witness for C10: with a reachable server, iterating the generator on the
one-space statement reaches the driver instead of raising the blank-SQL error. -/
theorem C10_generator_no_blank_check_witness :
    Ev.driverExec [' '] ∈ (MariaDBConnection.query_generator netOkW drvW stW [' ']).2.2
    ∧ (MariaDBConnection.query_generator netOkW drvW stW [' ']).1 ≠
        Except.error DBErr.emptyStatement :=
  have h := C10_generator_no_blank_check netOkW drvW stW [' '] (by decide)
  ⟨h.2.1 (by decide), h.1⟩

/-! ### STTListener model (src/stt_listener.py) -/

/-- outcome of one pass of the capture-loop body: the four exit paths of
`listen_speech` (lines 167-218). -/
inductive Outcome where
  | success (text : String)
  | silence
  | unintelligible
  | transportError
deriving DecidableEq, Repr

/-- observable state of an `STTListener`: microphone presence, the
`is_listening` flag, the `stop_listening` event, the number of `on_stop`
invocations so far, and the texts delivered to the transcription callback. -/
structure ListenerSt where
  mic : Bool
  is_listening : Bool
  stop_event : Bool
  stops : Nat
  transcripts : List String
deriving DecidableEq, Repr

/-- `STTListener.toggle_speech` (lines 122-140): the start branch checks the
microphone, sets the flag and clears the event (spawning the worker); the stop
branch clears the flag, sets the event and joins the worker.  Neither branch
invokes `on_stop`. -/
def toggle_speech (st : ListenerSt) : ListenerSt :=
  if !st.is_listening then
    if !st.mic then st
    else { st with is_listening := true, stop_event := false }
  else { st with is_listening := false, stop_event := true }

/-- `STTListener.start_speech` (lines 143-145). -/
def start_speech (st : ListenerSt) : ListenerSt :=
  if !st.is_listening then toggle_speech st else st

/-- `STTListener.stop_speech` (lines 147-149). -/
def stop_speech (st : ListenerSt) : ListenerSt :=
  if st.is_listening then toggle_speech st else st

/-- one run of the `listen_speech` worker (lines 164-218).  The `while`
condition is checked, and every branch of the body ends in `break`, so the
body runs at most once.  Each of the four exit paths clears `is_listening`
and then calls `on_stop` exactly once (the transport-error path does not set
the stop event, lines 208-218); if the condition already fails, the worker
returns without any `on_stop` call. -/
def listen_speech (o : Outcome) (st : ListenerSt) : ListenerSt :=
  if st.is_listening && !st.stop_event then
    match o with
    | Outcome.success t =>
      { st with transcripts := st.transcripts ++ [t],
                is_listening := false, stop_event := true, stops := st.stops + 1 }
    | Outcome.silence =>
      { st with is_listening := false, stop_event := true, stops := st.stops + 1 }
    | Outcome.unintelligible =>
      { st with is_listening := false, stop_event := true, stops := st.stops + 1 }
    | Outcome.transportError =>
      { st with is_listening := false, stops := st.stops + 1 }
  else st

/-- one `start`/`stop` cycle: `start_speech`, then, when `preempt` is set, an
explicit `stop_speech` that wins the race before the worker checks the loop
condition, then the worker run with recognition outcome `o`. -/
def runCycle (preempt : Bool) (o : Outcome) (st : ListenerSt) : ListenerSt :=
  let st1 := start_speech st
  let st2 := if preempt then stop_speech st1 else st1
  listen_speech o st2

/-- a freshly initialised idle listener with a working microphone. -/
def initListener : ListenerSt :=
  { mic := true, is_listening := false, stop_event := false, stops := 0, transcripts := [] }

/-- Counterexample to C2: a cycle ended by an explicit `stop_speech` call that
preempts the capture loop before its first condition check fires the stop
callback zero times, not exactly once. -/
theorem C2_stop_once_counterexample :
    (runCycle true Outcome.silence initListener).stops = 0
    ∧ ¬ (runCycle true Outcome.silence initListener).stops = 1
    ∧ (runCycle true Outcome.silence initListener).is_listening = false := by decide

/-- Claim C2 (amended): in a `start()`/`stop()` cycle in which the capture
loop body runs, `on_stop` fires exactly once on each of the four exit paths,
`is_listening` is false immediately afterwards, and a subsequent explicit
`stop_speech` adds no further notification; but a cycle ended by an explicit
`stop_speech` that preempts the loop's condition check produces zero stop
notifications (the listener still ends idle). -/
theorem C2_stop_exactly_once_amended (o : Outcome) (st : ListenerSt)
    (hm : st.mic = true) (hi : st.is_listening = false) :
    ((runCycle false o st).stops = st.stops + 1
     ∧ (runCycle false o st).is_listening = false
     ∧ stop_speech (runCycle false o st) = runCycle false o st)
    ∧ ((runCycle true o st).stops = st.stops
       ∧ (runCycle true o st).is_listening = false) := by
  have h1 : start_speech st = { st with is_listening := true, stop_event := false } := by
    simp [start_speech, toggle_speech, hi, hm]
  constructor
  · cases o <;> simp [runCycle, h1, listen_speech, stop_speech, toggle_speech]
  · simp [runCycle, h1, stop_speech, toggle_speech, listen_speech]

/-- concrete transcription text for the C2 witness. -/
def helloW : String := "hello"

/-- Witness for C2 (amended) on a fresh listener and a successful transcription. -/
theorem C2_stop_exactly_once_amended_witness :
    (runCycle false (Outcome.success helloW) initListener).stops = 1
    ∧ (runCycle false (Outcome.success helloW) initListener).is_listening = false
    ∧ (runCycle true (Outcome.success helloW) initListener).stops = 0 :=
  have h := C2_stop_exactly_once_amended (Outcome.success helloW) initListener rfl rfl
  ⟨h.1.1, h.1.2.1, h.2.1⟩

/-! ### aiEnglishQuery.clean_ai_response (src/aiEnglishQuery.py lines 92-97) -/

/-- the backtick character of a code fence. -/
def btChar : Char := Char.ofNat 96

/-- a three-backtick code fence. -/
def fenceL : List Char := [btChar, btChar, btChar]

/-- the `[a-zA-Z]` class of the opening-fence pattern. -/
def isAsciiAlpha (c : Char) : Bool :=
  (('a' : Char) ≤ c && c ≤ ('z' : Char)) || (('A' : Char) ≤ c && c ≤ ('Z' : Char))

/-- the first substitution of `clean_ai_response` (line 94): the pattern
`^`​```[a-zA-Z]*\n?` anchored at the start removes a leading three-backtick
fence, a maximal run of ASCII letters (the language tag), and one optional
newline; other strings pass through unchanged. -/
def dropFence1 (s : List Char) : List Char :=
  match s with
  | c1 :: c2 :: c3 :: rest =>
    if c1 = btChar ∧ c2 = btChar ∧ c3 = btChar then
      let t := rest.dropWhile isAsciiAlpha
      match t with
      | c :: t2 => if c = Char.ofNat 10 then t2 else t
      | [] => []
    else s
  | _ => s

/-- Bool test that `pre` is a prefix of `s`. -/
def startsWith : List Char → List Char → Bool
  | [], _ => true
  | _ :: _, [] => false
  | a :: pre, b :: s => a == b && startsWith pre s

/-- Bool test that `suf` is a suffix of `s`. -/
def endsWith (suf s : List Char) : Bool := startsWith suf.reverse s.reverse

/-- the second substitution of `clean_ai_response` (line 95) applied to an
already-stripped string: the pattern `\n?`​`````$` removes a trailing fence
together with the newline just before it when there is one (the leftmost of
the two possible matches ending at the end of the string). -/
def dropFence2 (s : List Char) : List Char :=
  if endsWith (Char.ofNat 10 :: fenceL) s then s.take (s.length - 4)
  else if endsWith fenceL s then s.take (s.length - 3)
  else s

/-- `aiEnglishQuery.clean_ai_response` (lines 92-97): strip, remove an opening
fence, strip again, remove a closing fence. -/
def clean_ai_response (s : List Char) : List Char :=
  dropFence2 (pyStrip (dropFence1 (pyStrip s)))

/-- Bool test that `s` contains a three-backtick fence anywhere. -/
def containsFence : List Char → Bool
  | [] => false
  | c :: rest => startsWith fenceL (c :: rest) || containsFence rest

/-! ### lemmas about fence stripping -/

lemma startsWith_iff (pre : List Char) : ∀ s, startsWith pre s = true ↔ pre <+: s := by
  induction pre with
  | nil => intro s; simp [startsWith]
  | cons a pre ih =>
    intro s
    cases s with
    | nil => simp [startsWith]
    | cons b s => simp [startsWith, ih, List.cons_prefix_cons]

lemma endsWith_iff (suf s : List Char) : endsWith suf s = true ↔ suf <:+ s := by
  rw [endsWith, startsWith_iff, List.reverse_prefix]

lemma containsFence_iff (s : List Char) : containsFence s = true ↔ fenceL <:+: s := by
  induction s with
  | nil => simp [containsFence, fenceL]
  | cons c rest ih => simp [containsFence, startsWith_iff, ih, List.infix_cons_iff]

lemma dropWhile_dropWhile (p : Char → Bool) (l : List Char) :
    (l.dropWhile p).dropWhile p = l.dropWhile p := by
  induction l with
  | nil => rfl
  | cons a l ih =>
    by_cases h : p a = true
    · rw [List.dropWhile_cons, if_pos h, ih]
    · rw [List.dropWhile_cons, if_neg h, List.dropWhile_cons, if_neg h]

lemma stripEnd_prefix (s : List Char) : stripEnd s <+: s := by
  have h : s.reverse.dropWhile pyIsSpace <:+ s.reverse := List.dropWhile_suffix pyIsSpace
  have h2 := List.reverse_prefix.mpr h
  simpa [stripEnd] using h2

lemma pyStrip_infix_self (s : List Char) : pyStrip s <:+: s := by
  have h1 : s.dropWhile pyIsSpace <:+ s := List.dropWhile_suffix pyIsSpace
  have h2 : pyStrip s <+: s.dropWhile pyIsSpace := stripEnd_prefix _
  exact h2.isInfix.trans h1.isInfix

lemma noFence_pyStrip (s : List Char) (h : containsFence s = false) :
    containsFence (pyStrip s) = false := by
  cases hx : containsFence (pyStrip s) with
  | false => rfl
  | true =>
    have h2 : containsFence s = true :=
      (containsFence_iff s).mpr (((containsFence_iff _).mp hx).trans (pyStrip_infix_self s))
    rw [h] at h2
    exact Bool.noConfusion h2

lemma dropFence1_eq_self (t : List Char) (h : ¬ fenceL <+: t) : dropFence1 t = t := by
  match t with
  | [] => rfl
  | [c1] => rfl
  | [c1, c2] => rfl
  | c1 :: c2 :: c3 :: rest =>
    have hc : ¬ (c1 = btChar ∧ c2 = btChar ∧ c3 = btChar) := by
      rintro ⟨e1, e2, e3⟩
      exact h ⟨rest, by simp [fenceL, e1, e2, e3]⟩
    rw [dropFence1, if_neg hc]

lemma dropFence2_eq_self (t : List Char) (h : containsFence t = false) : dropFence2 t = t := by
  have h3 : endsWith fenceL t = false := by
    cases hx : endsWith fenceL t with
    | false => rfl
    | true =>
      have h2 : containsFence t = true :=
        (containsFence_iff t).mpr ((endsWith_iff _ _).mp hx).isInfix
      rw [h] at h2
      exact Bool.noConfusion h2
  have h4 : endsWith (Char.ofNat 10 :: fenceL) t = false := by
    cases hx : endsWith (Char.ofNat 10 :: fenceL) t with
    | false => rfl
    | true =>
      have hs : fenceL <:+ t :=
        (List.suffix_cons (Char.ofNat 10) fenceL).trans ((endsWith_iff _ _).mp hx)
      have h2 : containsFence t = true := (containsFence_iff t).mpr hs.isInfix
      rw [h] at h2
      exact Bool.noConfusion h2
  rw [dropFence2, h4, h3]
  simp

lemma dropWhile_eq_self_of_prefix (p : Char → Bool) (u m : List Char)
    (hp : u <+: m) (hm : m.dropWhile p = m) : u.dropWhile p = u := by
  cases u with
  | nil => rfl
  | cons a u2 =>
    obtain ⟨t, ht⟩ := hp
    have hpa : ¬ p a = true := by
      intro hpa
      rw [← ht, List.cons_append, List.dropWhile_cons, if_pos hpa] at hm
      have h1 : ((u2 ++ t).dropWhile p).length = (u2 ++ t).length + 1 := by
        rw [hm]; simp
      have h2 := (List.dropWhile_suffix p (l := u2 ++ t)).length_le
      omega
    rw [List.dropWhile_cons, if_neg hpa]

lemma stripEnd_stripEnd (l : List Char) : stripEnd (stripEnd l) = stripEnd l := by
  simp [stripEnd, List.reverse_reverse, dropWhile_dropWhile]

lemma pyStrip_idem (s : List Char) : pyStrip (pyStrip s) = pyStrip s := by
  have hm : (s.dropWhile pyIsSpace).dropWhile pyIsSpace = s.dropWhile pyIsSpace :=
    dropWhile_dropWhile pyIsSpace s
  have hpre : stripEnd (s.dropWhile pyIsSpace) <+: s.dropWhile pyIsSpace :=
    stripEnd_prefix _
  have ht : (stripEnd (s.dropWhile pyIsSpace)).dropWhile pyIsSpace
      = stripEnd (s.dropWhile pyIsSpace) :=
    dropWhile_eq_self_of_prefix pyIsSpace _ _ hpre hm
  simp only [pyStrip]
  rw [ht, stripEnd_stripEnd]

lemma clean_ai_response_noFence (s : List Char) (h : containsFence s = false) :
    clean_ai_response s = pyStrip s := by
  have h1 : containsFence (pyStrip s) = false := noFence_pyStrip s h
  have h2 : dropFence1 (pyStrip s) = pyStrip s := by
    apply dropFence1_eq_self
    intro hp
    have h3 : containsFence (pyStrip s) = true := (containsFence_iff _).mpr hp.isInfix
    rw [h1] at h3
    exact Bool.noConfusion h3
  rw [clean_ai_response, h2, pyStrip_idem, dropFence2_eq_self _ h1]

/-- the language tag of the C3 example. -/
def sqlTagW : String := "sql"

/-- the fenced translator reply of the C3 example: three backticks, the tag
`sql`, a newline, `SELECT 1;`, a newline, three backticks. -/
def fencedExample : List Char :=
  fenceL ++ sqlTagW.data ++ [Char.ofNat 10] ++ sqlW ++ [Char.ofNat 10] ++ fenceL

/-- Counterexample to C3: a space followed by `SELECT 1;` contains no code
fence, yet `clean_ai_response` strips the leading space, so the function is
not the identity on fence-free strings. -/
theorem C3_clean_fence_counterexample :
    containsFence (' ' :: sqlW) = false
    ∧ ¬ clean_ai_response (' ' :: sqlW) = (' ' :: sqlW) := by decide

/-- Claim C3 (amended): the fenced example cleans to exactly `SELECT 1;`, and
every fence-free input is returned stripped of leading and trailing
whitespace — in particular unchanged whenever it has none. -/
theorem C3_clean_fence_amended (s : List Char) (h : containsFence s = false) :
    clean_ai_response fencedExample = sqlW
    ∧ clean_ai_response s = pyStrip s
    ∧ (pyStrip s = s → clean_ai_response s = s) := by
  refine ⟨by decide, clean_ai_response_noFence s h, fun hp => ?_⟩
  rw [clean_ai_response_noFence s h, hp]

/-- Witness for C3 (amended) at the fenced example and at the fence-free,
whitespace-free input `SELECT 1;`. -/
theorem C3_clean_fence_amended_witness :
    clean_ai_response fencedExample = sqlW ∧ clean_ai_response sqlW = sqlW :=
  have h := C3_clean_fence_amended sqlW (by decide)
  ⟨h.1, h.2.2 (by decide)⟩

/-! ### aiEnglishQuery result grid and on_submit (src/aiEnglishQuery.py lines 231-277) -/

/-- `row.get(col, "")` of line 257: the value the row-dict maps `k` to, or
the empty string when the key is absent. -/
def row_get (row : Row) (k : String) : PyVal :=
  match row.find? (fun p => p.1 == k) with
  | some p => p.2
  | none => PyVal.str ""

/-- observable state of the orchestrator UI: the result tree's column
headings and rendered rows, visibility of the result frame, the status label
and the text-box content. -/
structure UISt where
  columns : List String
  rows : List (List PyVal)
  visible : Bool
  status : String
  inputText : String
deriving DecidableEq, Repr

/-- `aiEnglishQuery.load_to_tkinter_grid` (lines 231-262): on an empty result
list it returns at once (line 237); otherwise it clears the tree, sets the
columns to the keys of the first row, inserts one rendered row per result row
with cells `row.get(col, "")` in column order, and shows the result frame. -/
def load_to_tkinter_grid (results : List Row) (st : UISt) : UISt :=
  match results with
  | [] => st
  | r0 :: _ =>
    let cols := r0.map Prod.fst
    { st with columns := cols,
              rows := results.map fun row => cols.map fun c => row_get row c,
              visible := true }

/-- the status message set on blank input (line 268). -/
def nothingMsg : String := "Nothing to submit"

/-- the status message set on submission (line 270). -/
def submittedMsg (content : String) : String :=
  "Submitted (" ++ toString content.length ++ " chars)"

/-- `aiEnglishQuery.on_submit` (lines 264-277): blank input shows a warning
and stops with the rendering untouched; otherwise the status is updated, the
translator reply is cleaned into SQL, the SQL is executed (an execution error
propagates, leaving the status already updated), the grid is loaded, and the
result frame is shown unconditionally (line 277). -/
def on_submit (translate : String → String) (exec : List Char → Except DBErr (List Row))
    (st : UISt) : Except DBErr Unit × UISt :=
  let content := st.inputText
  if pyStrip content.data = [] then
    (Except.ok (), { st with status := nothingMsg })
  else
    let st1 := { st with status := submittedMsg content }
    let sql := clean_ai_response (translate content).data
    match exec sql with
    | Except.error e => (Except.error e, st1)
    | Except.ok results =>
      let st2 := load_to_tkinter_grid results st1
      (Except.ok (), { st2 with visible := true })

/-- translator oracle for the grid witnesses: always answers `SELECT 1;`. -/
def transW : String → String := fun _ => sqlWstr

/-- execution oracle returning an empty result set. -/
def execEmptyW : List Char → Except DBErr (List Row) := fun _ => Except.ok []

/-- a UI state whose result frame is hidden, with non-blank input text. -/
def uiHiddenW : UISt :=
  { columns := [], rows := [], visible := false, status := "Ready", inputText := helloW }

/-- Counterexample to C6: a submission whose query returns an empty result
set on a hidden result frame leaves the tree content alone but makes the
frame visible — line 277 calls `grid()` unconditionally — so the rendering
area does not remain hidden. -/
theorem C6_empty_result_counterexample :
    uiHiddenW.visible = false
    ∧ (on_submit transW execEmptyW uiHiddenW).2.visible = true
    ∧ (on_submit transW execEmptyW uiHiddenW).2.rows = uiHiddenW.rows
    ∧ (on_submit transW execEmptyW uiHiddenW).2.columns = uiHiddenW.columns := by decide

/-- Claim C6 (amended): on an empty result set `on_submit` leaves the tree
columns and rows in their previous state (prior content kept), but
unconditionally makes the result frame visible, so a hidden frame becomes
visible showing its prior content; only the status label changes. -/
theorem C6_empty_result_amended (translate : String → String)
    (exec : List Char → Except DBErr (List Row)) (st : UISt)
    (hb : ¬ pyStrip st.inputText.data = [])
    (he : exec (clean_ai_response (translate st.inputText).data) = Except.ok []) :
    on_submit translate exec st =
      (Except.ok (), { st with status := submittedMsg st.inputText, visible := true }) := by
  simp [on_submit, hb, he, load_to_tkinter_grid]

/-- Witness for C6 (amended): the hidden frame becomes visible with unchanged
tree content. -/
theorem C6_empty_result_amended_witness :
    on_submit transW execEmptyW uiHiddenW =
      (Except.ok (), { uiHiddenW with status := submittedMsg helloW, visible := true }) :=
  C6_empty_result_amended transW execEmptyW uiHiddenW (by decide) rfl

/-- Claim C7: rendering a non-empty result set of `N` row-mappings produces
exactly `N` rendered rows; the header is the key list of the first row, and
rendered row `i` lists, in header order, the value result row `i` maps each
column to, a missing key rendering as the empty string; the rendering
function is total, so no result shape can make it raise. -/
theorem C7_grid_roundtrip (results : List Row) (st : UISt) (r0 : Row) (rest : List Row)
    (h : results = r0 :: rest) :
    (load_to_tkinter_grid results st).rows.length = results.length
    ∧ (load_to_tkinter_grid results st).columns = r0.map Prod.fst
    ∧ (load_to_tkinter_grid results st).visible = true
    ∧ (∀ i, (hi : i < (load_to_tkinter_grid results st).rows.length) →
        (hi2 : i < results.length) →
        (load_to_tkinter_grid results st).rows.get ⟨i, hi⟩ =
          (r0.map Prod.fst).map fun c => row_get (results.get ⟨i, hi2⟩) c)
    ∧ (∀ row, row ∈ results → ∀ c, ¬ c ∈ row.map Prod.fst →
        row_get row c = PyVal.str "") := by
  subst h
  refine ⟨by simp [load_to_tkinter_grid], by simp [load_to_tkinter_grid],
    by simp [load_to_tkinter_grid], ?_, ?_⟩
  · intro i hi hi2
    simp only [load_to_tkinter_grid]
    cases i with
    | zero => simp [List.get_eq_getElem]
    | succ j => simp [List.get_eq_getElem, List.getElem_map]
  · intro row hrow c hc
    have hn : row.find? (fun p => p.1 == c) = none := by
      rw [List.find?_eq_none]
      intro p hp hbeq
      exact hc (List.mem_map.mpr ⟨p, hp, by simpa using hbeq⟩)
    simp [row_get, hn]

/-- column names for the C7 witness. -/
def nameW : String := "name"

/-- second column name for the C7 witness. -/
def popW : String := "population"

/-- first result row: both keys present. -/
def rowAW : Row := [(nameW, PyVal.str helloW), (popW, PyVal.int 7)]

/-- second result row: the `population` key is missing. -/
def rowBW : Row := [(nameW, PyVal.str sqlTagW)]

/-- a two-row result set over the columns of the first row. -/
def resultsW : List Row := [rowAW, rowBW]

/-- Witness for C7 on a two-row result set whose second row misses a column. -/
theorem C7_grid_roundtrip_witness :
    (load_to_tkinter_grid resultsW uiHiddenW).rows.length = 2
    ∧ (load_to_tkinter_grid resultsW uiHiddenW).columns = [nameW, popW]
    ∧ row_get rowBW popW = PyVal.str "" :=
  have h := C7_grid_roundtrip resultsW uiHiddenW rowAW [rowBW] rfl
  ⟨h.1, h.2.1, h.2.2.2.2 rowBW (by decide) popW (by decide)⟩
